import Mathlib

/-!
Verification development for a WhatsApp webhook relay service
(FastAPI receiver `src/main.py`, ARQ worker `src/worker.py`, queue helpers
`src/queue.py`, pydantic models `src/models.py`, HMAC check `src/security.py`,
session building `src/ca_client.py`).

Python strings are embedded as Lean `String`; Python bytes as `List Nat`;
Python `None`-able values as `Option`; raised exceptions as `Except Unit`.
External HTTP services (WhatsApp Cloud API, Dialogflow CX, Gemini) are
modelled by an oracle `World` supplying the outcome of each outbound call,
and every modelled operation additionally returns the list of outbound
`Effect`s it attempted, in order.
-/

/-! ## String helpers mirroring the Python primitives used by the source -/

/-- Embedding of Python `s.startswith(pre)`: byte-for-byte prefix test. -/
def pyStartsWith (s pre : String) : Bool :=
  pre.data.isPrefixOf s.data

/-- Embedding of Python slicing `s[n:]`: drop the first `n` characters. -/
def pyDrop (s : String) (n : Nat) : String :=
  String.mk (s.data.drop n)

/-- Embedding of Python `s.replace(c, "")` for a one-character pattern `c`:
removing every occurrence of a single character is exactly a filter. -/
def pyRemoveChar (s : String) (c : Char) : String :=
  String.mk (s.data.filter (fun a => a != c))

/-! ## src/security.py -/

/-- Embedding of `verify_webhook_signature` (src/security.py lines 11-37).
`hmacSha256Hex` abstracts `hmac.new(key=secret.encode(), msg=payload,
digestmod=hashlib.sha256).hexdigest()`, which lives in the Python standard
library, not in this repository.  `appSecret` models `APP_SECRET =
os.getenv("APP_SECRET")`: Python `if not APP_SECRET` is true both when the
variable is unset (`None`) and when it is the empty string.
`hmac.compare_digest` on two hex strings is functionally string equality
(computed in constant time). -/
def verify_webhook_signature (hmacSha256Hex : String → List Nat → String)
    (appSecret : Option String) (payload : List Nat) (signature : String) : Bool :=
  match appSecret with
  | none => false
  | some secret =>
    if secret = "" then false
    else
      let sig := if pyStartsWith signature "sha256=" then pyDrop signature 7 else signature
      let expected := hmacSha256Hex secret payload
      expected == sig

/-! ## src/models.py -/

/-- Enum `MessageType` (src/models.py lines 12-26). -/
inductive MessageType where
  | text | image | document | audio | video | voice | sticker
  | location | contacts | interactive | button | unknown
deriving DecidableEq

/-- Embedding of the Python enum value lookup `MessageType(s)` as used by
`Message.get_message_type`: each of the twelve enum values maps to its tag,
any other string raises `ValueError`, which the caller turns into
`UNKNOWN`.  The `ValueError` branch is folded into the final `unknown`. -/
def MessageType.ofRaw (s : String) : MessageType :=
  if s = "text" then .text
  else if s = "image" then .image
  else if s = "document" then .document
  else if s = "audio" then .audio
  else if s = "video" then .video
  else if s = "voice" then .voice
  else if s = "sticker" then .sticker
  else if s = "location" then .location
  else if s = "contacts" then .contacts
  else if s = "interactive" then .interactive
  else if s = "button" then .button
  else .unknown

/-- `TextMessage` (src/models.py lines 29-32). -/
structure TextMessage where
  body : String
deriving DecidableEq

/-- `MediaMessage` (src/models.py lines 35-42). -/
structure MediaMessage where
  id : String
  mime_type : Option String := none
  sha256 : Option String := none
  caption : Option String := none
  filename : Option String := none
deriving DecidableEq

/-- `LocationMessage` (src/models.py lines 45-51).  The Python coordinates
are floats; no modelled code path computes with them, so they are carried
as integers purely as inert payload. -/
structure LocationMessage where
  latitude : Int
  longitude : Int
  name : Option String := none
  address : Option String := none
deriving DecidableEq

/-- `ContactProfile` (src/models.py lines 54-57). -/
structure ContactProfile where
  name : String
deriving DecidableEq

/-- `Contact` (src/models.py lines 60-64). -/
structure Contact where
  profile : ContactProfile
  wa_id : String
deriving DecidableEq

/-- `Message` (src/models.py lines 67-82). -/
structure Message where
  from_ : String
  id : String
  timestamp : String
  type : String
  text : Option TextMessage := none
  image : Option MediaMessage := none
  document : Option MediaMessage := none
  audio : Option MediaMessage := none
  video : Option MediaMessage := none
  voice : Option MediaMessage := none
  sticker : Option MediaMessage := none
  location : Option LocationMessage := none
  contacts : Option (List Contact) := none
deriving DecidableEq

/-- `Message.get_message_type` (src/models.py lines 84-89): enum lookup with
`ValueError` mapped to `UNKNOWN` (already folded into `MessageType.ofRaw`). -/
def Message.get_message_type (m : Message) : MessageType :=
  MessageType.ofRaw m.type

/-- The union type returned by `Message.get_content`:
`str | MediaMessage | LocationMessage | list[Contact]` (with `None`
represented by the surrounding `Option`). -/
inductive Content where
  | text (body : String)
  | media (m : MediaMessage)
  | location (l : LocationMessage)
  | contacts (cs : List Contact)
deriving DecidableEq

/-- `Message.get_content` (src/models.py lines 91-114).  The Python
`elif` chain guards each branch with `msg_type == TAG and self.slot`; the
type guards are mutually exclusive, so when the slot test fails every later
branch fails as well and the chain returns `None` — hence each branch here
matches on the slot directly.  For `contacts` Python truthiness treats the
empty list like `None`. -/
def Message.get_content (m : Message) : Option Content :=
  let msg_type := m.get_message_type
  if msg_type = MessageType.text then
    match m.text with
    | some t => some (.text t.body)
    | none => none
  else if msg_type = MessageType.image then
    match m.image with
    | some x => some (.media x)
    | none => none
  else if msg_type = MessageType.document then
    match m.document with
    | some x => some (.media x)
    | none => none
  else if msg_type = MessageType.audio then
    match m.audio with
    | some x => some (.media x)
    | none => none
  else if msg_type = MessageType.video then
    match m.video with
    | some x => some (.media x)
    | none => none
  else if msg_type = MessageType.voice then
    match m.voice with
    | some x => some (.media x)
    | none => none
  else if msg_type = MessageType.sticker then
    match m.sticker with
    | some x => some (.media x)
    | none => none
  else if msg_type = MessageType.location then
    match m.location with
    | some x => some (.location x)
    | none => none
  else if msg_type = MessageType.contacts then
    match m.contacts with
    | some (c :: cs) => some (.contacts (c :: cs))
    | _ => none
  else
    none

/-- `StatusUpdate` (src/models.py lines 117-125).  The free-form
`conversation`/`pricing` dicts are carried as inert key-value lists. -/
structure StatusUpdate where
  id : String
  status : String
  timestamp : String
  recipient_id : String
  conversation : Option (List (String × String)) := none
  pricing : Option (List (String × String)) := none
deriving DecidableEq

/-- `Metadata` (src/models.py lines 128-132). -/
structure Metadata where
  display_phone_number : String
  phone_number_id : String
deriving DecidableEq

/-- `Value` (src/models.py lines 135-142).  `messaging_product` is the
literal `"whatsapp"`, enforced by pydantic at parse time. -/
structure Value where
  messaging_product : String
  metadata : Metadata
  contacts : Option (List Contact) := none
  messages : Option (List Message) := none
  statuses : Option (List StatusUpdate) := none
deriving DecidableEq

/-- `Change` (src/models.py lines 145-149).  `field` is the literal
`"messages"`, enforced by pydantic at parse time. -/
structure Change where
  value : Value
  field : String
deriving DecidableEq

/-- `Entry` (src/models.py lines 152-156). -/
structure Entry where
  id : String
  changes : List Change
deriving DecidableEq

/-- `WebhookPayload` (src/models.py lines 159-163).  `object` is the
literal `"whatsapp_business_account"`, enforced by pydantic at parse time. -/
structure WebhookPayload where
  object : String
  entry : List Entry
deriving DecidableEq

/-- `WebhookPayload.get_messages` (src/models.py lines 165-172): flatten all
entries and changes in document order, skipping a `messages` field that is
`None` or empty (Python `if change.value.messages`). -/
def WebhookPayload.get_messages (p : WebhookPayload) : List Message :=
  p.entry.foldl (fun acc e =>
    e.changes.foldl (fun acc2 c =>
      match c.value.messages with
      | some (msg :: rest) => acc2 ++ (msg :: rest)
      | _ => acc2) acc) []

/-- `WebhookPayload.get_phone_number_id` (src/models.py lines 174-178):
`if self.entry and self.entry[0].changes`, then the metadata of the first
change of the first entry, else `None`. -/
def WebhookPayload.get_phone_number_id (p : WebhookPayload) : Option String :=
  match p.entry with
  | [] => none
  | e :: _ =>
    match e.changes with
    | [] => none
    | c :: _ => some c.value.metadata.phone_number_id

/-! ## src/ca_client.py : session identifiers -/

/-- The sanitization inside `ConversationalAgentClient._build_session_id`
(src/ca_client.py line 79):
`user_id.replace("+", "").replace("-", "").replace(" ", "")`. -/
def clean_user_id (user_id : String) : String :=
  pyRemoveChar (pyRemoveChar (pyRemoveChar user_id '+') '-') ' '

/-- `ConversationalAgentClient._build_session_id` (src/ca_client.py lines
68-81): sanitize the user id and prepend `self.session_prefix` (the
constructor default is `"meta-whatsapp"`) with a dash separator. -/
def build_session_id (sessionPre : String) (user_id : String) : String :=
  sessionPre ++ "-" ++ clean_user_id user_id

/-! ## Fixed user-facing strings from the source -/

/-- The fallback reply substituted for an empty intent-detection response
(src/worker.py line 80, src/main.py line 160). -/
def fallbackText : String := "I\x27m not sure how to help with that. Could you please rephrase?"

/-- The generic apology of the worker top-level catch (src/worker.py lines
56-58) and of the receiver text handler (src/main.py line 176). -/
def apologyText : String :=
  "Sorry, I encountered an error processing your message. Please try again."

/-- Apology of the receiver image handler (src/main.py line 210). -/
def apologyImageText : String :=
  "Sorry, I encountered an error processing your image. Please try again."

/-- Apology of the receiver document handler (src/main.py line 249). -/
def apologyDocumentText : String :=
  "Sorry, I encountered an error processing your document. Please try again."

/-- Apology of the receiver audio handler (src/main.py line 283). -/
def apologyAudioText : String :=
  "Sorry, I encountered an error processing your audio. Please try again."

/-! ## Outbound effects and the external-service oracle -/

/-- The intent-detection result dict built by
`ConversationalAgentClient.detect_intent` (src/ca_client.py lines 168-176),
restricted to the entries the modelled handlers read (`response_text`,
`intent`, `confidence`, `match_type`; `intent` / `confidence` /
`match_type` are only logged).  `confidence` is a Python float in [0,1],
carried as a rational. -/
structure IntentResult where
  response_text : String
  intent : String
  confidence : Rat
  match_type : String
deriving DecidableEq

/-- One attempted outbound call.  Every modelled operation returns the list
of effects it attempted, in program order. -/
inductive Effect where
  | enqueueJob (sender : String) (message_type : String)
      (content : Option Content) (message_id : String)
  | markAsRead (message_id : String)
  | sendText (to_ : String) (text : String)
  | detectIntent (text : Option String) (user_id : String)
  | downloadMedia (media_id : String)
  | processImage (data : List Nat) (mime_type : String) (caption : Option String)
  | processDocument (data : List Nat) (mime_type : String) (filename : Option String)
  | processAudio (data : List Nat) (mime_type : String)
deriving DecidableEq

/-- Oracle for everything outside this repository: the outcome of each
outbound HTTP call, the pydantic JSON parse, and the state of the ARQ Redis
pool.  `Except.error ()` models a raised exception. -/
structure World where
  parsePayload : List Nat → Except String WebhookPayload
  detectIntentResult : Option String → String → Except Unit IntentResult
  sendTextResult : String → String → Except Unit Unit
  markAsReadResult : String → Except Unit Unit
  downloadMediaResult : String → Except Unit (List Nat × String)
  processImageResult : List Nat → String → Option String → Except Unit String
  processDocumentResult : List Nat → String → Option String → Except Unit String
  processAudioResult : List Nat → String → Except Unit String
  pool : Option Unit
  enqueueResult : String → String → Option Content → String → Except Unit Unit

/-! ## src/whatsapp_client.py, src/ca_client.py, src/gemini_client.py -/

/-- `WhatsAppClient.send_text_message` (src/whatsapp_client.py lines
80-123): POSTs the text; on any failure it logs and re-raises. -/
def WhatsAppClient.send_text_message (w : World) (to_ message : String) :
    List Effect × Except Unit Unit :=
  ([.sendText to_ message], w.sendTextResult to_ message)

/-- `WhatsAppClient.mark_message_as_read` (src/whatsapp_client.py lines
125-163): on any failure it logs and returns an empty dict — the source
comment reads "Don't raise - this is not critical". -/
def WhatsAppClient.mark_message_as_read (w : World) (message_id : String) :
    List Effect × Except Unit Unit :=
  ([.markAsRead message_id],
    match w.markAsReadResult message_id with
    | .ok _ => .ok ()
    | .error _ => .ok ())

/-- `WhatsAppClient.download_media` (src/whatsapp_client.py lines 29-78):
two-step fetch; on any failure it logs and re-raises. -/
def WhatsAppClient.download_media (w : World) (media_id : String) :
    List Effect × Except Unit (List Nat × String) :=
  ([.downloadMedia media_id], w.downloadMediaResult media_id)

/-- `ConversationalAgentClient.detect_intent` (src/ca_client.py lines
95-189): RPC to Dialogflow CX; on any failure it logs and re-raises. -/
def ConversationalAgentClient.detect_intent (w : World) (text : Option String)
    (user_id : String) : List Effect × Except Unit IntentResult :=
  ([.detectIntent text user_id], w.detectIntentResult text user_id)

/-- `GeminiClient.process_image` (src/gemini_client.py lines 28-74):
upload + generate; on any failure it logs and re-raises. -/
def GeminiClient.process_image (w : World) (image_data : List Nat)
    (mime_type : String) (caption : Option String) :
    List Effect × Except Unit String :=
  ([.processImage image_data mime_type caption],
    w.processImageResult image_data mime_type caption)

/-- `GeminiClient.process_document` (src/gemini_client.py lines 76-122). -/
def GeminiClient.process_document (w : World) (document_data : List Nat)
    (mime_type : String) (filename : Option String) :
    List Effect × Except Unit String :=
  ([.processDocument document_data mime_type filename],
    w.processDocumentResult document_data mime_type filename)

/-- `GeminiClient.process_audio` (src/gemini_client.py lines 124-167). -/
def GeminiClient.process_audio (w : World) (audio_data : List Nat)
    (mime_type : String) : List Effect × Except Unit String :=
  ([.processAudio audio_data mime_type], w.processAudioResult audio_data mime_type)

/-! ## src/queue.py -/

/-- `enqueue_message_task` (src/queue.py lines 40-63): `get_pool()` raises
`RuntimeError` when `init_pool` was never called; otherwise one
`process_message` job is submitted with positional fields
`(sender, message_type, content_data, message_id)`. -/
def enqueue_message_task (w : World) (sender : String) (message_type : String)
    (content_data : Option Content) (message_id : String) :
    List Effect × Except Unit Unit :=
  match w.pool with
  | none => ([], .error ())
  | some _ =>
    ([.enqueueJob sender message_type content_data message_id],
      w.enqueueResult sender message_type content_data message_id)

/-- Recogniser for job-enqueue effects. -/
def Effect.isEnqueue : Effect → Bool
  | .enqueueJob _ _ _ _ => true
  | _ => false

/-- Number of jobs submitted to the durable queue in a trace. -/
def countEnqueues (t : List Effect) : Nat :=
  (t.filter Effect.isEnqueue).length

/-! ## src/worker.py : per-type handlers and the top-level task -/

/-- The dynamic content value carried by a job or passed by the receiver
router, viewed as the text argument a handler forwards to intent
detection.  For a text message `get_content` yields the message body
string, so this projection is exact on the text path. -/
def contentAsText : Option Content → Option String
  | some (.text s) => some s
  | _ => none

/-- Worker `_handle_text` (src/worker.py lines 67-88): detect intent,
substitute the fixed fallback for an empty response, send the reply.  Any
failure of `detect_intent` or of the send propagates to the caller. -/
def _handle_text (w : World) (sender : String) (content_data : Option Content)
    (message_id : String) : List Effect × Except Unit Unit :=
  match ConversationalAgentClient.detect_intent w (contentAsText content_data) sender with
  | (t1, .error e) => (t1, .error e)
  | (t1, .ok result) =>
    let response_text := if result.response_text = "" then fallbackText else result.response_text
    let s := WhatsAppClient.send_text_message w sender response_text
    (t1 ++ s.1, s.2)

/-- Worker `_handle_image` (src/worker.py lines 91-117).  The interim
notice "Reading image..." is sent with no surrounding try/except, so its
failure propagates and aborts the rest of the flow.  A `content_data` that
is not a media record makes `MediaMessage(**content_data)` raise. -/
def _handle_image (w : World) (sender : String) (content_data : Option Content)
    (message_id : String) : List Effect × Except Unit Unit :=
  match content_data with
  | some (.media content) =>
    let notice := WhatsAppClient.send_text_message w sender "Reading image..."
    match notice.2 with
    | .error e => (notice.1, .error e)
    | .ok _ =>
      match WhatsAppClient.download_media w content.id with
      | (t2, .error e) => (notice.1 ++ t2, .error e)
      | (t2, .ok (image_data, mime_type)) =>
        match GeminiClient.process_image w image_data mime_type content.caption with
        | (t3, .error e) => (notice.1 ++ t2 ++ t3, .error e)
        | (t3, .ok summary) =>
          match ConversationalAgentClient.detect_intent w (some summary) sender with
          | (t4, .error e) => (notice.1 ++ t2 ++ t3 ++ t4, .error e)
          | (t4, .ok result) =>
            let response_text :=
              if result.response_text = "" then fallbackText else result.response_text
            let s := WhatsAppClient.send_text_message w sender response_text
            (notice.1 ++ t2 ++ t3 ++ t4 ++ s.1, s.2)
  | _ => ([], .error ())

/-- Worker `_handle_document` (src/worker.py lines 120-149), with the
unprotected interim notice "Reading document...". -/
def _handle_document (w : World) (sender : String) (content_data : Option Content)
    (message_id : String) : List Effect × Except Unit Unit :=
  match content_data with
  | some (.media content) =>
    let notice := WhatsAppClient.send_text_message w sender "Reading document..."
    match notice.2 with
    | .error e => (notice.1, .error e)
    | .ok _ =>
      match WhatsAppClient.download_media w content.id with
      | (t2, .error e) => (notice.1 ++ t2, .error e)
      | (t2, .ok (document_data, mime_type)) =>
        match GeminiClient.process_document w document_data mime_type content.filename with
        | (t3, .error e) => (notice.1 ++ t2 ++ t3, .error e)
        | (t3, .ok summary) =>
          match ConversationalAgentClient.detect_intent w (some summary) sender with
          | (t4, .error e) => (notice.1 ++ t2 ++ t3 ++ t4, .error e)
          | (t4, .ok result) =>
            let response_text :=
              if result.response_text = "" then fallbackText else result.response_text
            let s := WhatsAppClient.send_text_message w sender response_text
            (notice.1 ++ t2 ++ t3 ++ t4 ++ s.1, s.2)
  | _ => ([], .error ())

/-- Worker `_handle_audio` (src/worker.py lines 152-178), with the
unprotected interim notice "Listening to audio...". -/
def _handle_audio (w : World) (sender : String) (content_data : Option Content)
    (message_id : String) : List Effect × Except Unit Unit :=
  match content_data with
  | some (.media content) =>
    let notice := WhatsAppClient.send_text_message w sender "Listening to audio..."
    match notice.2 with
    | .error e => (notice.1, .error e)
    | .ok _ =>
      match WhatsAppClient.download_media w content.id with
      | (t2, .error e) => (notice.1 ++ t2, .error e)
      | (t2, .ok (audio_data, mime_type)) =>
        match GeminiClient.process_audio w audio_data mime_type with
        | (t3, .error e) => (notice.1 ++ t2 ++ t3, .error e)
        | (t3, .ok transcription) =>
          match ConversationalAgentClient.detect_intent w (some transcription) sender with
          | (t4, .error e) => (notice.1 ++ t2 ++ t3 ++ t4, .error e)
          | (t4, .ok result) =>
            let response_text :=
              if result.response_text = "" then fallbackText else result.response_text
            let s := WhatsAppClient.send_text_message w sender response_text
            (notice.1 ++ t2 ++ t3 ++ t4 ++ s.1, s.2)
  | _ => ([], .error ())

/-- Worker `_handle_video` (src/worker.py lines 181-185): parses the media
record and logs; no outbound call. -/
def _handle_video (w : World) (sender : String) (content_data : Option Content)
    (message_id : String) : List Effect × Except Unit Unit :=
  match content_data with
  | some (.media _) => ([], .ok ())
  | _ => ([], .error ())

/-- Worker `_handle_location` (src/worker.py lines 188-195): parses the
location record and logs; no outbound call. -/
def _handle_location (w : World) (sender : String) (content_data : Option Content)
    (message_id : String) : List Effect × Except Unit Unit :=
  match content_data with
  | some (.location _) => ([], .ok ())
  | _ => ([], .error ())

/-- Worker `_handle_contacts` (src/worker.py lines 198-202): parses the
contact list and logs; no outbound call. -/
def _handle_contacts (w : World) (sender : String) (content_data : Option Content)
    (message_id : String) : List Effect × Except Unit Unit :=
  match content_data with
  | some (.contacts _) => ([], .ok ())
  | _ => ([], .error ())

/-- Worker `_handle_unsupported` (src/worker.py lines 205-208): log only. -/
def _handle_unsupported (w : World) (sender : String) (message_type : String)
    (message_id : String) : List Effect × Except Unit Unit :=
  ([], .ok ())

/-- The `handlers` dict lookup plus dispatch inside `process_message`
(src/worker.py lines 34-49): unmapped types go to `_handle_unsupported`. -/
def workerRoute (w : World) (sender : String) (message_type : String)
    (content_data : Option Content) (message_id : String) :
    List Effect × Except Unit Unit :=
  if message_type = "text" then _handle_text w sender content_data message_id
  else if message_type = "image" then _handle_image w sender content_data message_id
  else if message_type = "document" then _handle_document w sender content_data message_id
  else if message_type = "audio" then _handle_audio w sender content_data message_id
  else if message_type = "voice" then _handle_audio w sender content_data message_id
  else if message_type = "video" then _handle_video w sender content_data message_id
  else if message_type = "location" then _handle_location w sender content_data message_id
  else if message_type = "contacts" then _handle_contacts w sender content_data message_id
  else _handle_unsupported w sender message_type message_id

/-- Worker top-level task `process_message` (src/worker.py lines 23-60).
Any exception from the dispatched handler is caught; one best-effort
apology send is attempted (its own failure is swallowed by the inner
`except Exception: pass`); then the task RETURNS NORMALLY — the source has
no `raise` after the catch. -/
def process_message (w : World) (sender : String) (message_type : String)
    (content_data : Option Content) (message_id : String) :
    List Effect × Except Unit Unit :=
  match workerRoute w sender message_type content_data message_id with
  | (t, .ok _) => (t, .ok ())
  | (t, .error _) =>
    let s := WhatsAppClient.send_text_message w sender apologyText
    (t ++ s.1, .ok ())

/-! ## src/main.py : receiver-side handlers and POST /webhook -/

/-- Receiver `handle_text_message` (src/main.py lines 138-179).  The whole
body sits in a try/except: mark-as-read (which itself never raises), intent
detection, fallback substitution, send.  On any failure a best-effort
apology is attempted and swallowed; the function always returns normally. -/
def handle_text_message (w : World) (sender : String) (content : Option Content)
    (message_id : String) : List Effect × Except Unit Unit :=
  let r := WhatsAppClient.mark_message_as_read w message_id
  match ConversationalAgentClient.detect_intent w (contentAsText content) sender with
  | (t2, .error _) =>
    let a := WhatsAppClient.send_text_message w sender apologyText
    (r.1 ++ t2 ++ a.1, .ok ())
  | (t2, .ok result) =>
    let response_text := if result.response_text = "" then fallbackText else result.response_text
    let s := WhatsAppClient.send_text_message w sender response_text
    match s.2 with
    | .ok _ => (r.1 ++ t2 ++ s.1, .ok ())
    | .error _ =>
      let a := WhatsAppClient.send_text_message w sender apologyText
      (r.1 ++ t2 ++ s.1 ++ a.1, .ok ())

/-- Receiver `handle_image_message` (src/main.py lines 182-213).  Line 184
reads `content.id` BEFORE the try block, so a missing media record raises
out of the handler.  Inside the try, any failure leads to a swallowed
best-effort apology. -/
def handle_image_message (w : World) (sender : String) (content : Option Content)
    (message_id : String) : List Effect × Except Unit Unit :=
  match content with
  | some (.media c) =>
    let r := WhatsAppClient.mark_message_as_read w message_id
    match WhatsAppClient.download_media w c.id with
    | (t2, .error _) =>
      let a := WhatsAppClient.send_text_message w sender apologyImageText
      (r.1 ++ t2 ++ a.1, .ok ())
    | (t2, .ok (image_data, mime_type)) =>
      match GeminiClient.process_image w image_data mime_type c.caption with
      | (t3, .error _) =>
        let a := WhatsAppClient.send_text_message w sender apologyImageText
        (r.1 ++ t2 ++ t3 ++ a.1, .ok ())
      | (t3, .ok summary) =>
        let response_message := "📸 Image Analysis:\n\n" ++ summary
        let s := WhatsAppClient.send_text_message w sender response_message
        match s.2 with
        | .ok _ => (r.1 ++ t2 ++ t3 ++ s.1, .ok ())
        | .error _ =>
          let a := WhatsAppClient.send_text_message w sender apologyImageText
          (r.1 ++ t2 ++ t3 ++ s.1 ++ a.1, .ok ())
  | _ => ([], .error ())

/-- Receiver `handle_document_message` (src/main.py lines 216-252).  Lines
218-221 read `content.id` before the try block.  The reply subject line
includes the filename when it is truthy (a present empty string is falsy
in Python and keeps the plain form). -/
def handle_document_message (w : World) (sender : String) (content : Option Content)
    (message_id : String) : List Effect × Except Unit Unit :=
  match content with
  | some (.media c) =>
    let r := WhatsAppClient.mark_message_as_read w message_id
    match WhatsAppClient.download_media w c.id with
    | (t2, .error _) =>
      let a := WhatsAppClient.send_text_message w sender apologyDocumentText
      (r.1 ++ t2 ++ a.1, .ok ())
    | (t2, .ok (document_data, mime_type)) =>
      match GeminiClient.process_document w document_data mime_type c.filename with
      | (t3, .error _) =>
        let a := WhatsAppClient.send_text_message w sender apologyDocumentText
        (r.1 ++ t2 ++ t3 ++ a.1, .ok ())
      | (t3, .ok summary) =>
        let response_message :=
          match c.filename with
          | some fn =>
            if fn = "" then "📄 Document Summary:\n\n" ++ summary
            else "📄 Document Summary (" ++ fn ++ "):\n\n" ++ summary
          | none => "📄 Document Summary:\n\n" ++ summary
        let s := WhatsAppClient.send_text_message w sender response_message
        match s.2 with
        | .ok _ => (r.1 ++ t2 ++ t3 ++ s.1, .ok ())
        | .error _ =>
          let a := WhatsAppClient.send_text_message w sender apologyDocumentText
          (r.1 ++ t2 ++ t3 ++ s.1 ++ a.1, .ok ())
  | _ => ([], .error ())

/-- Receiver `handle_audio_message` (src/main.py lines 255-286).  Line 257
reads `content.id` before the try block. -/
def handle_audio_message (w : World) (sender : String) (content : Option Content)
    (message_id : String) : List Effect × Except Unit Unit :=
  match content with
  | some (.media c) =>
    let r := WhatsAppClient.mark_message_as_read w message_id
    match WhatsAppClient.download_media w c.id with
    | (t2, .error _) =>
      let a := WhatsAppClient.send_text_message w sender apologyAudioText
      (r.1 ++ t2 ++ a.1, .ok ())
    | (t2, .ok (audio_data, mime_type)) =>
      match GeminiClient.process_audio w audio_data mime_type with
      | (t3, .error _) =>
        let a := WhatsAppClient.send_text_message w sender apologyAudioText
        (r.1 ++ t2 ++ t3 ++ a.1, .ok ())
      | (t3, .ok transcription) =>
        let response_message := "🎤 Audio Transcription:\n\n" ++ transcription
        let s := WhatsAppClient.send_text_message w sender response_message
        match s.2 with
        | .ok _ => (r.1 ++ t2 ++ t3 ++ s.1, .ok ())
        | .error _ =>
          let a := WhatsAppClient.send_text_message w sender apologyAudioText
          (r.1 ++ t2 ++ t3 ++ s.1 ++ a.1, .ok ())
  | _ => ([], .error ())

/-- Receiver `handle_video_message` (src/main.py lines 289-293): logs
`content.id` / `content.caption` (raising when the record is absent) and
returns; no outbound call. -/
def handle_video_message (w : World) (sender : String) (content : Option Content)
    (message_id : String) : List Effect × Except Unit Unit :=
  match content with
  | some (.media _) => ([], .ok ())
  | _ => ([], .error ())

/-- Receiver `handle_location_message` (src/main.py lines 296-303): logs
the coordinates (raising when the record is absent) and returns. -/
def handle_location_message (w : World) (sender : String) (content : Option Content)
    (message_id : String) : List Effect × Except Unit Unit :=
  match content with
  | some (.location _) => ([], .ok ())
  | _ => ([], .error ())

/-- Receiver `handle_contacts_message` (src/main.py lines 306-310): logs
`len(content)` (raising when the list is absent) and returns. -/
def handle_contacts_message (w : World) (sender : String) (content : Option Content)
    (message_id : String) : List Effect × Except Unit Unit :=
  match content with
  | some (.contacts _) => ([], .ok ())
  | _ => ([], .error ())

/-- Receiver `handle_unsupported_message` (src/main.py lines 313-317):
log only. -/
def handle_unsupported_message (w : World) (sender : String)
    (message_id : String) : List Effect × Except Unit Unit :=
  ([], .ok ())

/-- The per-message `if`/`elif` routing inside `handle_post_webhook`
(src/main.py lines 104-132), dispatching on `message.get_message_type()`
with `message.get_content()` and `message.from_` as arguments. -/
def routeMessage (w : World) (m : Message) : List Effect × Except Unit Unit :=
  let message_type := m.get_message_type
  let content := m.get_content
  let sender := m.from_
  if message_type = MessageType.text then handle_text_message w sender content m.id
  else if message_type = MessageType.image then handle_image_message w sender content m.id
  else if message_type = MessageType.document then handle_document_message w sender content m.id
  else if message_type = MessageType.audio ∨ message_type = MessageType.voice then
    handle_audio_message w sender content m.id
  else if message_type = MessageType.video then handle_video_message w sender content m.id
  else if message_type = MessageType.location then handle_location_message w sender content m.id
  else if message_type = MessageType.contacts then handle_contacts_message w sender content m.id
  else handle_unsupported_message w sender m.id

/-- The `for message in messages` loop of `handle_post_webhook`: handlers
run strictly in sequence; an exception escaping one aborts the loop (and
surfaces as an HTTP 500). -/
def processMessages (w : World) : List Message → List Effect × Except Unit Unit
  | [] => ([], .ok ())
  | m :: ms =>
    match routeMessage w m with
    | (t, .error e) => (t, .error e)
    | (t, .ok _) =>
      let rest := processMessages w ms
      (t ++ rest.1, rest.2)

/-- Responses of POST /webhook.  `jsonStatusOk` stands for
`JSONResponse(content=\x7b"status": "ok"\x7d, status_code=200)`;
`forbidden` / `badRequest` for `HTTPException(403)` / `HTTPException(400)`;
`internalError` for an exception escaping the endpoint (HTTP 500). -/
inductive HttpResponse where
  | jsonStatusOk
  | forbidden (detail : String)
  | badRequest (detail : String)
  | internalError
deriving DecidableEq

/-- `handle_post_webhook` (src/main.py lines 66-135): verify the signature
(403 on mismatch), parse the payload (400 on failure), short-circuit with
200 when `get_messages()` is empty, otherwise route every message inline
and return 200.  Note that the endpoint performs the per-message work
itself during the request: it never touches `src/queue.py`. -/
def handle_post_webhook (w : World) (hmacSha256Hex : String → List Nat → String)
    (appSecret : Option String) (rawBody : List Nat)
    (x_hub_signature_256 : String) : HttpResponse × List Effect :=
  if verify_webhook_signature hmacSha256Hex appSecret rawBody x_hub_signature_256 then
    match w.parsePayload rawBody with
    | .error e => (.badRequest ("Invalid payload: " ++ e), [])
    | .ok payload =>
      match payload.get_messages with
      | [] => (.jsonStatusOk, [])
      | msg :: msgs =>
        match processMessages w (msg :: msgs) with
        | (t, .ok _) => (.jsonStatusOk, t)
        | (t, .error _) => (.internalError, t)
  else (.forbidden "Invalid signature", [])

/-! ## The spec-side populated-slot predicate for get_content -/

/-- Whether the content slot matching the classified type tag is populated.
Slots are pydantic `Optional` fields; for `contacts` Python truthiness also
treats a present-but-empty list as unpopulated.  The tags `interactive`,
`button` and `unknown` have no content slot on `Message`. -/
def matchingSlotPopulated (m : Message) : Bool :=
  match m.get_message_type with
  | .text => m.text.isSome
  | .image => m.image.isSome
  | .document => m.document.isSome
  | .audio => m.audio.isSome
  | .video => m.video.isSome
  | .voice => m.voice.isSome
  | .sticker => m.sticker.isSome
  | .location => m.location.isSome
  | .contacts => match m.contacts with
    | some (_ :: _) => true
    | _ => false
  | .interactive => false
  | .button => false
  | .unknown => false

/-! ## Concrete data for witnesses and counterexamples -/

/-- A stand-in for the HMAC-SHA256 hex digest function (constant output;
any function of this type works for the structural properties proved). -/
def hmacConst : String → List Nat → String := fun _ _ => "cafe0123"

/-- An intent result with a non-empty response. -/
def intentHello : IntentResult :=
  { response_text := "Hello!", intent := "greeting", confidence := 1, match_type := "INTENT" }

/-- An intent result with an empty response text. -/
def intentEmpty : IntentResult :=
  { response_text := "", intent := "", confidence := 0, match_type := "NO_MATCH" }

/-- A world in which every outbound call succeeds. -/
def worldBase : World where
  parsePayload := fun _ => .error "no body"
  detectIntentResult := fun _ _ => .ok intentHello
  sendTextResult := fun _ _ => .ok ()
  markAsReadResult := fun _ => .ok ()
  downloadMediaResult := fun _ => .ok ([1, 2, 3], "image/jpeg")
  processImageResult := fun _ _ _ => .ok "a cat"
  processDocumentResult := fun _ _ _ => .ok "a report"
  processAudioResult := fun _ _ => .ok "hello there"
  pool := none
  enqueueResult := fun _ _ _ _ => .ok ()

/-- The one-text-message example of the spec:
`\x7b"type":"text","text":\x7b"body":"hi"\x7d\x7d`. -/
def msgTextHi : Message :=
  { from_ := "15550001111", id := "wamid.MSG1", timestamp := "1700000000",
    type := "text", text := some { body := "hi" } }

/-- A parsed payload holding exactly the one text message above. -/
def payloadOneText : WebhookPayload :=
  { object := "whatsapp_business_account",
    entry := [{ id := "1029384756",
                changes := [{ value := { messaging_product := "whatsapp",
                                         metadata := { display_phone_number := "15551230000",
                                                       phone_number_id := "PHONE1" },
                                         messages := some [msgTextHi] },
                              field := "messages" }] }] }

/-- A status-update-only payload: entries and changes present, `messages`
absent. -/
def payloadStatusOnly : WebhookPayload :=
  { object := "whatsapp_business_account",
    entry := [{ id := "1029384756",
                changes := [{ value := { messaging_product := "whatsapp",
                                         metadata := { display_phone_number := "15551230000",
                                                       phone_number_id := "PHONE1" },
                                         statuses := some [{ id := "wamid.OUT1",
                                                             status := "delivered",
                                                             timestamp := "1700000001",
                                                             recipient_id := "15550001111" }] },
                              field := "messages" }] }] }

/-- World whose webhook body parses to the one-text-message payload. -/
def worldOneText : World := { worldBase with parsePayload := fun _ => .ok payloadOneText }

/-- World whose webhook body parses to the status-only payload. -/
def worldStatusOnly : World := { worldBase with parsePayload := fun _ => .ok payloadStatusOnly }

/-- World in which intent detection raises (simulated adapter timeout). -/
def worldDetectFail : World := { worldBase with detectIntentResult := fun _ _ => .error () }

/-- World in which exactly the interim notice "Reading image..." fails to
send; every other outbound call succeeds. -/
def worldNoticeFail : World :=
  { worldBase with sendTextResult := fun _ msg =>
      if msg = "Reading image..." then .error () else .ok () }

/-- World in which intent detection succeeds with an empty response text. -/
def worldEmptyResp : World := { worldBase with detectIntentResult := fun _ _ => .ok intentEmpty }

/-- A media record for an inbound image. -/
def mediaImg : MediaMessage := { id := "MEDIA1", caption := some "look at this" }

/-- A message whose declared type is `text` while only the image slot is
populated: the mismatched slot must be treated as absent. -/
def msgTextWithImageSlot : Message :=
  { from_ := "15550001111", id := "wamid.MSG3", timestamp := "1700000002",
    type := "text", image := some mediaImg }

/-! ## Helper lemmas -/

/-- Appending strings appends their character lists. -/
lemma string_data_append (a b : String) : (a ++ b).data = a.data ++ b.data := rfl

/-- A string starts with any string it extends. -/
lemma pyStartsWith_append_self (pre x : String) : pyStartsWith (pre ++ x) pre = true := by
  have h : (pre ++ x).data = pre.data ++ x.data := rfl
  simp [pyStartsWith, h, List.isPrefixOf_iff_prefix]

/-- Dropping seven characters removes exactly a leading "sha256=". -/
lemma pyDrop_sha256 (x : String) : pyDrop ("sha256=" ++ x) 7 = x := by
  have h : ("sha256=" ++ x).data = "sha256=".data ++ x.data := rfl
  rw [pyDrop, h, List.drop_left' (show ("sha256=".data).length = 7 from rfl)]

/-- Filtering twice with the same predicate filters once. -/
lemma filter_self_idem (p : Char → Bool) (l : List Char) :
    (l.filter p).filter p = l.filter p := by
  simp [List.filter_filter, Bool.and_self]

/-- Boolean tautology behind the idempotence of the triple character
removal. -/
lemma bool_and_idem3 (x y z : Bool) :
    (x && (y && (z && (x && (y && z))))) = (x && (y && z)) := by
  cases x <;> cases y <;> cases z <;> rfl

/-! ## C4 : signature verification -/

/-- C4.  With a configured, non-empty shared secret: the correctly signed
header verifies with or without the "sha256=" marker (the digest itself
never starts with the marker, e.g. because it is hex); prefixing the
marker to any marker-free header never changes the verdict; any header
whose digest part differs from the expected digest is rejected; and with
an unconfigured (absent or empty) secret every input is rejected, and the
function is total so it never throws. -/
theorem verify_webhook_signature_spec
    (hm : String → List Nat → String) (secret : String) (payload : List Nat)
    (hsec : secret ≠ "")
    (hhex : pyStartsWith (hm secret payload) "sha256=" = false) :
    verify_webhook_signature hm (some secret) payload ("sha256=" ++ hm secret payload) = true
    ∧ verify_webhook_signature hm (some secret) payload (hm secret payload) = true
    ∧ (∀ header : String, pyStartsWith header "sha256=" = false →
        verify_webhook_signature hm (some secret) payload ("sha256=" ++ header)
          = verify_webhook_signature hm (some secret) payload header)
    ∧ (∀ header : String,
        (if pyStartsWith header "sha256=" then pyDrop header 7 else header) ≠ hm secret payload →
        verify_webhook_signature hm (some secret) payload header = false)
    ∧ (∀ (p2 : List Nat) (s2 : String), verify_webhook_signature hm none p2 s2 = false)
    ∧ (∀ (p2 : List Nat) (s2 : String), verify_webhook_signature hm (some "") p2 s2 = false) := by
  refine ⟨?_, ?_, ?_, ?_, fun p2 s2 => rfl, fun p2 s2 => by simp [verify_webhook_signature]⟩
  · simp [verify_webhook_signature, hsec, pyStartsWith_append_self, pyDrop_sha256]
  · simp [verify_webhook_signature, hsec, hhex]
  · intro header hh
    simp [verify_webhook_signature, hsec, hh, pyStartsWith_append_self, pyDrop_sha256]
  · intro header hne
    simp only [verify_webhook_signature, if_neg hsec]
    exact beq_eq_false_iff_ne.mpr (fun h => hne h.symm)

/-- Witness for C4 at a concrete secret, payload and digest function. -/
theorem verify_webhook_signature_spec_witness :
    ("app-secret" : String) ≠ ""
    ∧ pyStartsWith (hmacConst "app-secret" [1, 2]) "sha256=" = false
    ∧ verify_webhook_signature hmacConst (some "app-secret") [1, 2]
        ("sha256=" ++ hmacConst "app-secret" [1, 2]) = true :=
  ⟨by decide, by decide,
    (verify_webhook_signature_spec hmacConst "app-secret" [1, 2] (by decide) (by decide)).1⟩

/-! ## C7 : session identifier -/

/-- C7.  The session builder is a pure function computing
`prefix ++ "-" ++ sanitized user id`, the sanitization removes every
plus, dash and space character and is idempotent, and the spec example
evaluates as stated. -/
theorem build_session_id_spec :
    (∀ pre uid : String, build_session_id pre uid = pre ++ "-" ++ clean_user_id uid)
    ∧ build_session_id "meta-whatsapp" "+1 234-5678" = "meta-whatsapp-12345678"
    ∧ (∀ uid : String, clean_user_id (clean_user_id uid) = clean_user_id uid) := by
  refine ⟨fun pre uid => rfl, by decide, fun uid => ?_⟩
  show pyRemoveChar (pyRemoveChar (pyRemoveChar (clean_user_id uid) '+') '-') ' '
      = clean_user_id uid
  simp only [clean_user_id, pyRemoveChar, List.filter_filter]
  congr 1
  apply List.filter_congr
  intro a _
  exact bool_and_idem3 _ _ _

/-! ## C8 : content extraction -/

/-- C8.  `get_content` returns a non-absent value exactly when the content
slot matching the classified type is populated (for `contacts`, populated
means present and non-empty, matching Python truthiness); in particular a
message typed `text` whose only populated slot is `image` yields absent,
and tags without a slot (`interactive`, `button`, `unknown`) always yield
absent — never an error, the function being total. -/
theorem get_content_iff_matching_slot :
    (∀ m : Message, (m.get_content).isSome = matchingSlotPopulated m)
    ∧ msgTextWithImageSlot.get_content = none := by
  refine ⟨fun m => ?_, by decide⟩
  cases h : m.get_message_type with
  | text => rcases ht : m.text with _ | t <;>
      simp [Message.get_content, matchingSlotPopulated, h, ht]
  | image => rcases ht : m.image with _ | t <;>
      simp [Message.get_content, matchingSlotPopulated, h, ht]
  | document => rcases ht : m.document with _ | t <;>
      simp [Message.get_content, matchingSlotPopulated, h, ht]
  | audio => rcases ht : m.audio with _ | t <;>
      simp [Message.get_content, matchingSlotPopulated, h, ht]
  | video => rcases ht : m.video with _ | t <;>
      simp [Message.get_content, matchingSlotPopulated, h, ht]
  | voice => rcases ht : m.voice with _ | t <;>
      simp [Message.get_content, matchingSlotPopulated, h, ht]
  | sticker => rcases ht : m.sticker with _ | t <;>
      simp [Message.get_content, matchingSlotPopulated, h, ht]
  | location => rcases ht : m.location with _ | t <;>
      simp [Message.get_content, matchingSlotPopulated, h, ht]
  | contacts => rcases ht : m.contacts with _ | (_ | ⟨c, cs⟩) <;>
      simp [Message.get_content, matchingSlotPopulated, h, ht]
  | interactive => simp [Message.get_content, matchingSlotPopulated, h]
  | button => simp [Message.get_content, matchingSlotPopulated, h]
  | unknown => simp [Message.get_content, matchingSlotPopulated, h]

/-! ## C9 : type classification -/

/-- C9.  Classification is total: each of the eleven recognized raw type
strings maps to its tag, `Message.get_message_type` is exactly this
classification of the raw `type` field, and every other string maps to
`unknown` (the Python `ValueError` is caught, so no input raises). -/
theorem get_message_type_total_closed_set :
    (MessageType.ofRaw "text" = .text
      ∧ MessageType.ofRaw "image" = .image
      ∧ MessageType.ofRaw "document" = .document
      ∧ MessageType.ofRaw "audio" = .audio
      ∧ MessageType.ofRaw "video" = .video
      ∧ MessageType.ofRaw "voice" = .voice
      ∧ MessageType.ofRaw "sticker" = .sticker
      ∧ MessageType.ofRaw "location" = .location
      ∧ MessageType.ofRaw "contacts" = .contacts
      ∧ MessageType.ofRaw "interactive" = .interactive
      ∧ MessageType.ofRaw "button" = .button
      ∧ ∀ m : Message, m.get_message_type = MessageType.ofRaw m.type)
    ∧ (∀ s : String, s ≠ "text" → s ≠ "image" → s ≠ "document" → s ≠ "audio" →
        s ≠ "video" → s ≠ "voice" → s ≠ "sticker" → s ≠ "location" →
        s ≠ "contacts" → s ≠ "interactive" → s ≠ "button" →
        MessageType.ofRaw s = .unknown) := by
  refine ⟨⟨by decide, by decide, by decide, by decide, by decide, by decide, by decide,
      by decide, by decide, by decide, by decide, fun m => rfl⟩, ?_⟩
  intro s h1 h2 h3 h4 h5 h6 h7 h8 h9 h10 h11
  simp [MessageType.ofRaw, h1, h2, h3, h4, h5, h6, h7, h8, h9, h10, h11]

/-- Witness for C9 at a concrete unrecognized string. -/
theorem get_message_type_total_closed_set_witness :
    ("gif" : String) ≠ "text" ∧ MessageType.ofRaw "gif" = .unknown :=
  ⟨by decide,
    get_message_type_total_closed_set.2 "gif" (by decide) (by decide) (by decide)
      (by decide) (by decide) (by decide) (by decide) (by decide) (by decide)
      (by decide) (by decide)⟩

/-! ## C10 : phone number id extraction -/

/-- C10.  `get_phone_number_id` returns the metadata of the first change of
the first entry when both lists are non-empty and absent otherwise, and
its value is unchanged by whatever sits in later changes or later
entries. -/
theorem get_phone_number_id_first_entry_first_change :
    (∀ obj : String, WebhookPayload.get_phone_number_id ⟨obj, []⟩ = none)
    ∧ (∀ (obj eid : String) (es : List Entry),
        WebhookPayload.get_phone_number_id ⟨obj, ⟨eid, []⟩ :: es⟩ = none)
    ∧ (∀ (obj eid : String) (c : Change) (cs : List Change) (es : List Entry),
        WebhookPayload.get_phone_number_id ⟨obj, ⟨eid, c :: cs⟩ :: es⟩
          = some c.value.metadata.phone_number_id)
    ∧ (∀ (obj eid : String) (c : Change) (cs cs2 : List Change) (es es2 : List Entry),
        WebhookPayload.get_phone_number_id ⟨obj, ⟨eid, c :: cs⟩ :: es⟩
          = WebhookPayload.get_phone_number_id ⟨obj, ⟨eid, c :: cs2⟩ :: es2⟩) :=
  ⟨fun _ => rfl, fun _ _ _ => rfl, fun _ _ _ _ _ => rfl, fun _ _ _ _ _ _ _ => rfl⟩

/-! ## No-enqueue lemmas for the receiver -/

/-- Enqueue counts add over trace concatenation. -/
lemma countEnqueues_append (a b : List Effect) :
    countEnqueues (a ++ b) = countEnqueues a + countEnqueues b := by
  simp [countEnqueues, List.filter_append]

/-- The receiver text handler submits no job. -/
lemma countEnqueues_handle_text_message (w : World) (s : String) (c : Option Content)
    (mid : String) : countEnqueues (handle_text_message w s c mid).1 = 0 := by
  unfold handle_text_message ConversationalAgentClient.detect_intent
    WhatsAppClient.mark_message_as_read WhatsAppClient.send_text_message
  cases hd : w.detectIntentResult (contentAsText c) s with
  | error e => simp [countEnqueues, Effect.isEnqueue]
  | ok r =>
    dsimp only
    cases hs : w.sendTextResult s (if r.response_text = "" then fallbackText
        else r.response_text) with
    | ok u => simp [countEnqueues, Effect.isEnqueue]
    | error e => simp [countEnqueues, Effect.isEnqueue]

/-- The receiver image handler submits no job. -/
lemma countEnqueues_handle_image_message (w : World) (s : String) (c : Option Content)
    (mid : String) : countEnqueues (handle_image_message w s c mid).1 = 0 := by
  unfold handle_image_message WhatsAppClient.mark_message_as_read
    WhatsAppClient.send_text_message WhatsAppClient.download_media GeminiClient.process_image
  cases c with
  | none => simp [countEnqueues]
  | some cnt =>
    cases cnt with
    | text b => simp [countEnqueues]
    | location l => simp [countEnqueues]
    | contacts cs => simp [countEnqueues]
    | media mm =>
      dsimp only
      cases hdl : w.downloadMediaResult mm.id with
      | error e => simp [countEnqueues, Effect.isEnqueue]
      | ok pr =>
        cases pr with
        | mk data mime =>
          dsimp only
          cases hpi : w.processImageResult data mime mm.caption with
          | error e => simp [countEnqueues, Effect.isEnqueue]
          | ok summary =>
            dsimp only
            cases hs : w.sendTextResult s ("📸 Image Analysis:\n\n" ++ summary) with
            | ok u => simp [countEnqueues, Effect.isEnqueue]
            | error e => simp [countEnqueues, Effect.isEnqueue]

/-- The receiver document handler submits no job. -/
lemma countEnqueues_handle_document_message (w : World) (s : String) (c : Option Content)
    (mid : String) : countEnqueues (handle_document_message w s c mid).1 = 0 := by
  unfold handle_document_message WhatsAppClient.mark_message_as_read
    WhatsAppClient.send_text_message WhatsAppClient.download_media
    GeminiClient.process_document
  cases c with
  | none => simp [countEnqueues]
  | some cnt =>
    cases cnt with
    | text b => simp [countEnqueues]
    | location l => simp [countEnqueues]
    | contacts cs => simp [countEnqueues]
    | media mm =>
      dsimp only
      cases hdl : w.downloadMediaResult mm.id with
      | error e => simp [countEnqueues, Effect.isEnqueue]
      | ok pr =>
        cases pr with
        | mk data mime =>
          dsimp only
          cases hpd : w.processDocumentResult data mime mm.filename with
          | error e => simp [countEnqueues, Effect.isEnqueue]
          | ok summary =>
            cases hf : mm.filename with
            | none =>
              dsimp only
              cases hs : w.sendTextResult s ("📄 Document Summary:\n\n" ++ summary) with
              | ok u => simp [countEnqueues, Effect.isEnqueue]
              | error e => simp [countEnqueues, Effect.isEnqueue]
            | some fn =>
              dsimp only
              by_cases hfe : fn = ""
              · rw [if_pos hfe]
                cases hs : w.sendTextResult s ("📄 Document Summary:\n\n" ++ summary) with
                | ok u => simp [countEnqueues, Effect.isEnqueue]
                | error e => simp [countEnqueues, Effect.isEnqueue]
              · rw [if_neg hfe]
                cases hs : w.sendTextResult s
                    ("📄 Document Summary (" ++ fn ++ "):\n\n" ++ summary) with
                | ok u => simp [countEnqueues, Effect.isEnqueue]
                | error e => simp [countEnqueues, Effect.isEnqueue]

/-- The receiver audio handler submits no job. -/
lemma countEnqueues_handle_audio_message (w : World) (s : String) (c : Option Content)
    (mid : String) : countEnqueues (handle_audio_message w s c mid).1 = 0 := by
  unfold handle_audio_message WhatsAppClient.mark_message_as_read
    WhatsAppClient.send_text_message WhatsAppClient.download_media GeminiClient.process_audio
  cases c with
  | none => simp [countEnqueues]
  | some cnt =>
    cases cnt with
    | text b => simp [countEnqueues]
    | location l => simp [countEnqueues]
    | contacts cs => simp [countEnqueues]
    | media mm =>
      dsimp only
      cases hdl : w.downloadMediaResult mm.id with
      | error e => simp [countEnqueues, Effect.isEnqueue]
      | ok pr =>
        cases pr with
        | mk data mime =>
          dsimp only
          cases hpa : w.processAudioResult data mime with
          | error e => simp [countEnqueues, Effect.isEnqueue]
          | ok transcription =>
            dsimp only
            cases hs : w.sendTextResult s
                ("🎤 Audio Transcription:\n\n" ++ transcription) with
            | ok u => simp [countEnqueues, Effect.isEnqueue]
            | error e => simp [countEnqueues, Effect.isEnqueue]

/-- The receiver stub handlers submit no job. -/
lemma countEnqueues_handle_video_message (w : World) (s : String) (c : Option Content)
    (mid : String) : countEnqueues (handle_video_message w s c mid).1 = 0 := by
  unfold handle_video_message
  repeat' split
  all_goals rfl

/-- The receiver location stub submits no job. -/
lemma countEnqueues_handle_location_message (w : World) (s : String) (c : Option Content)
    (mid : String) : countEnqueues (handle_location_message w s c mid).1 = 0 := by
  unfold handle_location_message
  repeat' split
  all_goals rfl

/-- The receiver contacts stub submits no job. -/
lemma countEnqueues_handle_contacts_message (w : World) (s : String) (c : Option Content)
    (mid : String) : countEnqueues (handle_contacts_message w s c mid).1 = 0 := by
  unfold handle_contacts_message
  repeat' split
  all_goals rfl

/-- Routing a message through the receiver submits no job. -/
lemma countEnqueues_routeMessage (w : World) (m : Message) :
    countEnqueues (routeMessage w m).1 = 0 := by
  unfold routeMessage
  dsimp only
  repeat' split
  all_goals first
    | exact countEnqueues_handle_text_message _ _ _ _
    | exact countEnqueues_handle_image_message _ _ _ _
    | exact countEnqueues_handle_document_message _ _ _ _
    | exact countEnqueues_handle_audio_message _ _ _ _
    | exact countEnqueues_handle_video_message _ _ _ _
    | exact countEnqueues_handle_location_message _ _ _ _
    | exact countEnqueues_handle_contacts_message _ _ _ _
    | rfl

/-- The receiver message loop submits no job. -/
lemma countEnqueues_processMessages (w : World) (ms : List Message) :
    countEnqueues (processMessages w ms).1 = 0 := by
  induction ms with
  | nil => rfl
  | cons m t ih =>
    unfold processMessages
    rcases h : routeMessage w m with ⟨tr, r⟩
    have htr : countEnqueues tr = 0 := by
      have h0 := countEnqueues_routeMessage w m
      rw [h] at h0
      exact h0
    cases r with
    | error e => simpa [h] using htr
    | ok u => simp [h, countEnqueues_append, htr, ih]

/-! ## C1 : the receiver does not enqueue -/

/-- C1.  The POST /webhook handler of src/main.py never submits a job to
the durable queue — for every world, secret, body and signature its trace
contains zero enqueue effects — and on the spec scenario (valid signature,
one text message with body "hi") it returns 200 with status ok after
having handled the message INLINE (mark-as-read, intent detection and the
reply all happen during the request) with zero jobs enqueued, where the
claim requires exactly one enqueued job.  `enqueue_message_task` exists in
src/queue.py but no code path of the receiver reaches it. -/
theorem handle_post_webhook_enqueues_nothing :
    (∀ (w : World) (hm : String → List Nat → String) (secret : Option String)
        (raw : List Nat) (sig : String),
        countEnqueues (handle_post_webhook w hm secret raw sig).2 = 0)
    ∧ handle_post_webhook worldOneText hmacConst (some "app-secret") [123] "sha256=cafe0123"
      = (.jsonStatusOk,
         [.markAsRead "wamid.MSG1", .detectIntent (some "hi") "15550001111",
          .sendText "15550001111" "Hello!"]) := by
  constructor
  · intro w hm secret raw sig
    unfold handle_post_webhook
    by_cases hv : verify_webhook_signature hm secret raw sig = true
    · cases hp : w.parsePayload raw with
      | error e => simp [hv, hp, countEnqueues]
      | ok payload =>
        cases hms : payload.get_messages with
        | nil => simp [hv, hp, hms, countEnqueues]
        | cons m ms =>
          rcases hpm : processMessages w (m :: ms) with ⟨t, r⟩
          have ht : countEnqueues t = 0 := by
            have h0 := countEnqueues_processMessages w (m :: ms)
            rw [hpm] at h0
            exact h0
          cases r with
          | ok u => simp [hv, hp, hms, hpm, ht]
          | error e => simp [hv, hp, hms, hpm, ht]
    · simp [hv, countEnqueues]
  · decide

/-! ## C5 : zero-message payloads short-circuit -/

/-- C5.  For every correctly signed request whose body parses to a payload
with zero messages across all entries and changes, POST /webhook returns
200 with status ok, performs no outbound call, enqueues no job and invokes
no per-message handler (the effect trace is empty). -/
theorem empty_messages_short_circuit_ok
    (w : World) (hm : String → List Nat → String) (secret : Option String)
    (raw : List Nat) (sig : String) (p : WebhookPayload)
    (hsig : verify_webhook_signature hm secret raw sig = true)
    (hparse : w.parsePayload raw = .ok p)
    (hempty : p.get_messages = []) :
    handle_post_webhook w hm secret raw sig = (.jsonStatusOk, []) := by
  unfold handle_post_webhook
  simp [hsig, hparse, hempty]

/-- Witness for C5 at a concrete status-update-only payload. -/
theorem empty_messages_short_circuit_ok_witness :
    verify_webhook_signature hmacConst (some "app-secret") [9] "sha256=cafe0123" = true
    ∧ worldStatusOnly.parsePayload [9] = .ok payloadStatusOnly
    ∧ payloadStatusOnly.get_messages = []
    ∧ handle_post_webhook worldStatusOnly hmacConst (some "app-secret") [9] "sha256=cafe0123"
      = (.jsonStatusOk, []) :=
  ⟨by decide, rfl, by decide,
    empty_messages_short_circuit_ok worldStatusOnly hmacConst (some "app-secret") [9]
      "sha256=cafe0123" payloadStatusOnly (by decide) rfl (by decide)⟩

/-! ## C2 : worker failure handling -/

/-- C2 (counterexample).  The claim states the worker top-level task never
returns cleanly after a handler failure and re-raises the original error.
At this concrete input the dispatched text handler raises (intent
detection fails), yet `process_message` swallows the error and returns
normally after the apology: the source has no `raise` after its catch. -/
theorem process_message_returns_cleanly_after_handler_failure :
    (workerRoute worldDetectFail "15550001111" "text" (some (.text "hi")) "wamid.MSG1").2
      = .error ()
    ∧ process_message worldDetectFail "15550001111" "text" (some (.text "hi")) "wamid.MSG1"
      = ([.detectIntent (some "hi") "15550001111", .sendText "15550001111" apologyText],
         .ok ()) :=
  ⟨rfl, rfl⟩

/-- C2 (amended).  For every job whose dispatched handler raises, the
worker top-level task attempts the generic apology exactly once (its own
failure is swallowed — the result is `ok` whatever `sendTextResult`
says) and then RETURNS CLEANLY, swallowing the original error, so the
queue's attempt-count machinery never observes a handler failure. -/
theorem process_message_apology_once_then_clean_return
    (w : World) (sender message_type : String) (content_data : Option Content)
    (message_id : String) (t : List Effect)
    (hfail : workerRoute w sender message_type content_data message_id = (t, .error ())) :
    process_message w sender message_type content_data message_id
      = (t ++ [.sendText sender apologyText], .ok ()) := by
  unfold process_message
  rw [hfail]
  simp [WhatsAppClient.send_text_message]

/-- Witness for the amended C2 at a concrete failing job. -/
theorem process_message_apology_once_witness :
    workerRoute worldDetectFail "15550001111" "text" (some (.text "hi")) "wamid.MSG1"
      = ([.detectIntent (some "hi") "15550001111"], .error ())
    ∧ process_message worldDetectFail "15550001111" "text" (some (.text "hi")) "wamid.MSG1"
      = ([.detectIntent (some "hi") "15550001111"] ++ [.sendText "15550001111" apologyText],
         .ok ()) :=
  ⟨rfl,
    process_message_apology_once_then_clean_return worldDetectFail "15550001111" "text"
      (some (.text "hi")) "wamid.MSG1" [.detectIntent (some "hi") "15550001111"] rfl⟩

/-! ## C3 : best-effort operations -/

/-- C3 (counterexample).  The claim states every interim processing notice
failure is logged, swallowed and the surrounding flow continues.  In this
world only the send of "Reading image..." fails; the worker image handler
then raises to its caller with the notice as its entire trace: the media
download, the summarization and the reply never happen, so the flow did
not continue and the failure was not swallowed. -/
theorem interim_notice_failure_aborts_image_flow :
    _handle_image worldNoticeFail "15550001111" (some (.media mediaImg)) "wamid.MSG2"
      = ([.sendText "15550001111" "Reading image..."], .error ())
    ∧ Effect.downloadMedia "MEDIA1"
        ∉ (_handle_image worldNoticeFail "15550001111" (some (.media mediaImg)) "wamid.MSG2").1 := by
  constructor
  · rfl
  · decide

/-- C3 (amended).  Mark-as-read never raises (every failure of the
underlying call is swallowed), and apology replies never escalate: the
worker top-level task and the receiver text handler return cleanly for
every world, whatever the apology send does.  The interim processing
notices are NOT protected this way (see the counterexample). -/
theorem best_effort_mark_read_and_apology_never_raise :
    (∀ (w : World) (mid : String), (WhatsAppClient.mark_message_as_read w mid).2 = .ok ())
    ∧ (∀ (w : World) (s mt : String) (cd : Option Content) (mid : String),
        (process_message w s mt cd mid).2 = .ok ())
    ∧ (∀ (w : World) (s : String) (c : Option Content) (mid : String),
        (handle_text_message w s c mid).2 = .ok ()) := by
  refine ⟨fun w mid => ?_, fun w s mt cd mid => ?_, fun w s c mid => ?_⟩
  · unfold WhatsAppClient.mark_message_as_read
    cases w.markAsReadResult mid <;> rfl
  · unfold process_message
    rcases h : workerRoute w s mt cd mid with ⟨t, r⟩
    cases r <;> rfl
  · unfold handle_text_message ConversationalAgentClient.detect_intent
      WhatsAppClient.mark_message_as_read WhatsAppClient.send_text_message
    cases hd : w.detectIntentResult (contentAsText c) s with
    | error e => rfl
    | ok r =>
      dsimp only
      cases hs : w.sendTextResult s (if r.response_text = "" then fallbackText
          else r.response_text) with
      | ok u => rfl
      | error e => rfl

/-! ## C6 : empty-response fallback -/

/-- C6.  In both text flows, whenever intent detection succeeds with
result `r`, the reply sent to the user is exactly `r.response_text` when
it is non-empty and exactly the fixed fallback string when it is empty:
the worker text handler sends precisely that one message, and the
receiver text handler sends it as its one primary reply (followed only by
the apology attempt when that send itself fails). -/
theorem empty_response_fallback_substitution
    (w : World) (sender : String) (c : Option Content) (mid : String) (r : IntentResult)
    (hok : w.detectIntentResult (contentAsText c) sender = .ok r) :
    _handle_text w sender c mid
      = ([.detectIntent (contentAsText c) sender,
          .sendText sender (if r.response_text = "" then fallbackText else r.response_text)],
         w.sendTextResult sender (if r.response_text = "" then fallbackText else r.response_text))
    ∧ handle_text_message w sender c mid
      = ([.markAsRead mid, .detectIntent (contentAsText c) sender,
          .sendText sender (if r.response_text = "" then fallbackText else r.response_text)]
          ++ (match w.sendTextResult sender
                (if r.response_text = "" then fallbackText else r.response_text) with
              | .ok _ => []
              | .error _ => [.sendText sender apologyText]),
         .ok ()) := by
  constructor
  · unfold _handle_text ConversationalAgentClient.detect_intent
      WhatsAppClient.send_text_message
    rw [hok]
    rfl
  · unfold handle_text_message ConversationalAgentClient.detect_intent
      WhatsAppClient.mark_message_as_read WhatsAppClient.send_text_message
    rw [hok]
    dsimp only
    cases hs : w.sendTextResult sender (if r.response_text = "" then fallbackText
        else r.response_text) with
    | ok u => simp
    | error e => simp

/-- Witness for C6 at a concrete empty intent-detection response. -/
theorem empty_response_fallback_substitution_witness :
    worldEmptyResp.detectIntentResult (some "hi") "15550001111" = .ok intentEmpty
    ∧ _handle_text worldEmptyResp "15550001111" (some (.text "hi")) "wamid.MSG1"
      = ([.detectIntent (some "hi") "15550001111", .sendText "15550001111" fallbackText],
         .ok ()) := by
  refine ⟨rfl, ?_⟩
  have h := (empty_response_fallback_substitution worldEmptyResp "15550001111"
    (some (.text "hi")) "wamid.MSG1" intentEmpty rfl).1
  simpa [contentAsText, intentEmpty, worldEmptyResp, worldBase] using h
